import Mathlib

/-
Verification of the rainfall-accounting core of the ESP32 weather station
firmware (src/src/main.cpp, src/include/config.h).

Shallow embedding conventions:
- time_t values are modelled as mathematical integers (Int); on the target
  toolchain time_t is a 64-bit signed integer, and all times occurring in
  practice are far from its bounds, so Int arithmetic is exact.
- uint32_t record timestamps are modelled as Nat together with an explicit
  reduction modulo 2 to the 32 at the point where a time_t value is stored
  into the uint32_t field (function toU32 below).
- float rainfall amounts are modelled as rationals: every concrete amount in
  the claims is an exact multiple of 0.25, for which binary floating point
  addition is exact.
- the RTC_DATA_ATTR array rainHistory together with rainHistoryCount is
  modelled as the list of its live entries (indices 0 .. count-1): all code
  paths keep the live entries contiguous from index 0.
-/

namespace WeatherStation

/-- MAX_RAIN_RECORDS from config.h line 10. -/
def MAX_RAIN_RECORDS : Nat := 288

/-- HOUR_MILLIS / 1000: the one hour window in seconds (config.h line 11). -/
def HOUR_SECONDS : Int := 3600

/-- DAY_MILLIS / 1000: the 24 hour window in seconds (config.h line 12). -/
def DAY_SECONDS : Int := 86400

/-- NTP_SYNC_INTERVAL / 1000: resync interval in seconds (config.h line 34). -/
def NTP_SYNC_INTERVAL_SECONDS : Int := 3600

/-- Conversion of a time_t value to the uint32_t timestamp field of a
RainRecord (assignment at main.cpp line 1005). -/
def toU32 (t : Int) : Nat := (t % (2 ^ 32 : Int)).toNat

/-- RainRecord struct, main.cpp lines 56-59. -/
structure RainRecord where
  timestamp : Nat
  amount : ℚ
deriving DecidableEq

/-- The rain-log part of the RTC_DATA_ATTR state: the live prefix of
rainHistory (main.cpp line 67, with rainHistoryCount line 68) and
totalRainfall (line 69). -/
structure RainState where
  rainHistory : List RainRecord
  totalRainfall : ℚ
deriving DecidableEq

/-- Cold-boot initial values of the rain-log state (main.cpp lines 67-69:
rainHistoryCount = 0, totalRainfall = 0.0). -/
def initialRainState : RainState := { rainHistory := [], totalRainfall := 0 }

/-- Effect of the shift loop at main.cpp lines 996-1002: every record is
moved one slot towards index 0 and the count is decremented, which removes
exactly the record at index 0. -/
def evictOldestShift : List RainRecord → List RainRecord
  | [] => []
  | _ :: rest => rest

/-- addRainRecord(amount), main.cpp lines 971-1030. The current time value
(computed at lines 977-993 from NTP or from millis()/1000) enters as the
currentTime parameter. Amounts that are not strictly positive are rejected
at lines 973-975; a full buffer loses its oldest record (lines 996-1002);
the new record is stored at the tail (lines 1005-1007) and totalRainfall is
increased (line 1010). -/
def addRainRecord (s : RainState) (currentTime : Int) (amount : ℚ) : RainState :=
  if amount ≤ 0 then s
  else
    let h :=
      if MAX_RAIN_RECORDS ≤ s.rainHistory.length then evictOldestShift s.rainHistory
      else s.rainHistory
    { rainHistory := h ++ [{ timestamp := toU32 currentTime, amount := amount }],
      totalRainfall := s.totalRainfall + amount }

/-- The summation loop shared by getRainLastHour (main.cpp lines 1065-1070)
and getRainLast24Hours (lines 1112-1117): accumulate the amount of every
live record whose timestamp is at least the cutoff. -/
def rainSince (history : List RainRecord) (cutoff : Int) : ℚ :=
  history.foldl
    (fun acc r => if cutoff ≤ (r.timestamp : Int) then acc + r.amount else acc) 0

/-- getRainLastHour, main.cpp lines 1033-1077, with the resolved current
time as a parameter: sums records with timestamp at least currentTime minus
one hour (line 1044). -/
def getRainLastHourAt (history : List RainRecord) (currentTime : Int) : ℚ :=
  rainSince history (currentTime - HOUR_SECONDS)

/-- getRainLast24Hours, main.cpp lines 1080-1124, with the resolved current
time as a parameter: sums records with timestamp at least currentTime minus
24 hours (line 1091). -/
def getRainLast24HoursAt (history : List RainRecord) (currentTime : Int) : ℚ :=
  rainSince history (currentTime - DAY_SECONDS)

/-- The generic windowed sum of the spec; getRainLastHourAt is the window
3600 instance and getRainLast24HoursAt the window 86400 instance. -/
def sumInWindow (history : List RainRecord) (now windowSeconds : Int) : ℚ :=
  rainSince history (now - windowSeconds)

/-- Effect of the in-place compaction loop of manageRainHistory
(main.cpp lines 1152-1161): scanning left to right, each record with
timestamp at least the cutoff is kept (moved to the next free slot, hence
order is preserved), all others are dropped. Writes in that loop only touch
indices strictly below the read index, so each record is read unmodified. -/
def keepRecent (cutoff : Int) : List RainRecord → List RainRecord
  | [] => []
  | r :: rest =>
    if cutoff ≤ (r.timestamp : Int) then r :: keepRecent cutoff rest
    else keepRecent cutoff rest

/-- manageRainHistory, main.cpp lines 1127-1170, with the resolved current
time as a parameter: drops every record older than 24 hours (cutoff
computed at line 1136) and updates rainHistoryCount (line 1168);
totalRainfall is not touched. -/
def manageRainHistory (s : RainState) (currentTime : Int) : RainState :=
  { s with rainHistory := keepRecent (currentTime - DAY_SECONDS) s.rainHistory }

/-- One operation of a wake-cycle trace on the rain log: an append coming
from a rain interrupt (main.cpp line 234) or an age-based eviction pass
(line 239). -/
inductive RainOp where
  | append (currentTime : Int) (amount : ℚ)
  | manage (currentTime : Int)

/-- Application of a single trace operation to the rain-log state. -/
def applyOp (s : RainState) : RainOp → RainState
  | .append t a => addRainRecord s t a
  | .manage t => manageRainHistory s t

/-- Execution of a sequence of appends and evictions. -/
def runOps (s : RainState) : List RainOp → RainState
  | [] => s
  | op :: rest => runOps (applyOp s op) rest

/-- Sum of the strictly positive amounts among the append operations of a
trace (amounts that addRainRecord rejects contribute nothing). -/
def posAppendSum : List RainOp → ℚ
  | [] => 0
  | .append _ a :: rest => (if 0 < a then a else 0) + posAppendSum rest
  | .manage _ :: rest => posAppendSum rest

/- Helper lemmas about the rain log. -/

lemma evictOldestShift_length (l : List RainRecord) :
    (evictOldestShift l).length = l.length - 1 := by
  cases l <;> simp [evictOldestShift]

lemma keepRecent_eq_filter (cutoff : Int) (l : List RainRecord) :
    keepRecent cutoff l = l.filter (fun r => decide (cutoff ≤ (r.timestamp : Int))) := by
  induction l with
  | nil => rfl
  | cons r rest ih =>
    by_cases hc : cutoff ≤ (r.timestamp : Int) <;>
      simp [keepRecent, hc, ih, List.filter_cons]

lemma keepRecent_length_le (cutoff : Int) (l : List RainRecord) :
    (keepRecent cutoff l).length ≤ l.length := by
  rw [keepRecent_eq_filter]
  exact List.length_filter_le _ l

lemma rainSince_acc (l : List RainRecord) (cutoff : Int) (acc : ℚ) :
    l.foldl (fun acc r => if cutoff ≤ (r.timestamp : Int) then acc + r.amount else acc) acc
      = acc + rainSince l cutoff := by
  induction l generalizing acc with
  | nil => simp [rainSince]
  | cons r rest ih =>
    simp only [rainSince, List.foldl_cons]
    by_cases hc : cutoff ≤ (r.timestamp : Int)
    · rw [if_pos hc, if_pos hc, ih, ih ((0 : ℚ) + r.amount)]
      ring
    · rw [if_neg hc, if_neg hc, ih, ih (0 : ℚ)]
      ring

lemma rainSince_eq_filter_sum (l : List RainRecord) (cutoff : Int) :
    rainSince l cutoff
      = ((l.filter (fun r => decide (cutoff ≤ (r.timestamp : Int)))).map
          RainRecord.amount).sum := by
  induction l with
  | nil => rfl
  | cons r rest ih =>
    simp only [rainSince, List.foldl_cons] at ih ⊢
    by_cases hc : cutoff ≤ (r.timestamp : Int)
    · rw [if_pos hc, rainSince_acc, rainSince, ih]
      simp [hc]
    · rw [if_neg hc, ih]
      simp [hc]

lemma addRainRecord_total (s : RainState) (t : Int) (a : ℚ) :
    (addRainRecord s t a).totalRainfall
      = s.totalRainfall + (if 0 < a then a else 0) := by
  rcases le_or_lt a 0 with h | h
  · simp [addRainRecord, h, not_lt.mpr h]
  · simp [addRainRecord, not_le.mpr h, h]

lemma addRainRecord_length (s : RainState) (t : Int) (a : ℚ) (h : ¬ a ≤ 0) :
    (addRainRecord s t a).rainHistory.length =
      (if MAX_RAIN_RECORDS ≤ s.rainHistory.length
       then s.rainHistory.length - 1 else s.rainHistory.length) + 1 := by
  by_cases hfull : MAX_RAIN_RECORDS ≤ s.rainHistory.length <;>
    simp [addRainRecord, h, hfull, evictOldestShift_length]

lemma addRainRecord_length_le (s : RainState) (t : Int) (a : ℚ)
    (hs : s.rainHistory.length ≤ MAX_RAIN_RECORDS) :
    (addRainRecord s t a).rainHistory.length ≤ MAX_RAIN_RECORDS := by
  rcases le_or_lt a 0 with h | h
  · simpa [addRainRecord, h] using hs
  · rw [addRainRecord_length s t a (not_le.mpr h)]
    simp only [MAX_RAIN_RECORDS] at hs ⊢
    split_ifs with hfull <;> omega

lemma runOps_total (ops : List RainOp) :
    ∀ s : RainState, (runOps s ops).totalRainfall = s.totalRainfall + posAppendSum ops := by
  induction ops with
  | nil => intro s; simp [runOps, posAppendSum]
  | cons op rest ih =>
    intro s
    cases op with
    | append t a =>
      simp only [runOps, applyOp, posAppendSum]
      rw [ih, addRainRecord_total]
      ring
    | manage t =>
      simp only [runOps, applyOp, posAppendSum]
      rw [ih]
      rfl

lemma runOps_length_le (ops : List RainOp) :
    ∀ s : RainState, s.rainHistory.length ≤ MAX_RAIN_RECORDS →
      (runOps s ops).rainHistory.length ≤ MAX_RAIN_RECORDS := by
  induction ops with
  | nil => intro s hs; simpa [runOps] using hs
  | cons op rest ih =>
    intro s hs
    cases op with
    | append t a =>
      exact ih _ (addRainRecord_length_le s t a hs)
    | manage t =>
      refine ih _ ?_
      exact le_trans (keepRecent_length_le _ _) hs

/- Clock and time-sync model.

The mutable clock state consists of lastNTPSync (RTC_DATA_ATTR, main.cpp
line 66) and the system clock read by time(nullptr), which configTime
rewrites on a successful sync. The environment of one call holds the facts
the code merely observes: whether WiFi is associated, whether the NTP fetch
completes before the 10 second timeout, the epoch time it would install,
and the millis-derived uptime used by the unsynchronized fallback paths.
All reads within one call are modelled at one frozen instant. -/

/-- Threshold of the wait loop in syncTimeWithNTP (main.cpp line 1209):
time is considered synchronized once time(nullptr) is at least the epoch
value of January 1st 2021. -/
def NTP_VALID_EPOCH : Int := 1609459200

/-- Mutable clock state: lastNTPSync (main.cpp line 66) and the value the
system clock currently shows, as returned by time(nullptr). -/
structure ClockState where
  lastNTPSync : Int
  clockNow : Int
deriving DecidableEq

/-- Environment of one clock operation: WiFi association status, whether
the NTP fetch would complete within the timeout, the epoch time a
successful sync installs, and millis()/1000. -/
structure ClockEnv where
  wifiConnected : Bool
  ntpSuccess : Bool
  ntpTime : Int
  uptimeSec : Int
deriving DecidableEq

/-- syncTimeWithNTP, main.cpp lines 1188-1229. Without WiFi it returns at
once (lines 1189-1192). A recent successful sync is skipped (line 1196:
lastNTPSync > 0, now > lastNTPSync and now - lastNTPSync below the resync
interval). Otherwise configTime is invoked and the code waits until
time(nullptr) reaches NTP_VALID_EPOCH or the timeout expires; on timeout
the state is left untouched (line 1213), on success the system clock now
shows the NTP time and lastNTPSync is set to it (lines 1217-1218). -/
def syncTimeWithNTP (env : ClockEnv) (c : ClockState) : ClockState :=
  if env.wifiConnected = false then c
  else if 0 < c.lastNTPSync ∧ c.lastNTPSync < c.clockNow ∧
      c.clockNow - c.lastNTPSync < NTP_SYNC_INTERVAL_SECONDS then c
  else if env.ntpSuccess = true ∧ NTP_VALID_EPOCH ≤ env.ntpTime then
    { lastNTPSync := env.ntpTime, clockNow := env.ntpTime }
  else c

/-- getLocalTime, main.cpp lines 1232-1237: when WiFi is up and either no
sync ever happened or the last one is at least the resync interval old, a
sync attempt runs first; the returned value is time(nullptr) afterwards.
The pair is (clock state after the call, returned time). -/
def getLocalTime (env : ClockEnv) (c : ClockState) : ClockState × Int :=
  if env.wifiConnected = true ∧
      (c.lastNTPSync = 0 ∨ NTP_SYNC_INTERVAL_SECONDS ≤ c.clockNow - c.lastNTPSync) then
    let c2 := syncTimeWithNTP env c
    (c2, c2.clockNow)
  else (c, c.clockNow)

/-- Current-time resolution shared by getRainLastHour (main.cpp lines
1036-1042), getRainLast24Hours (lines 1083-1089), manageRainHistory (lines
1128-1134) and addRainRecord (lines 977-993): with WiFi up and a prior
sync, getLocalTime is consulted (possibly resyncing); otherwise
millis()/1000 is used and the state is untouched. -/
def resolveCurrentTime (env : ClockEnv) (c : ClockState) : ClockState × Int :=
  if env.wifiConnected = true ∧ 0 < c.lastNTPSync then getLocalTime env c
  else (c, env.uptimeSec)

/-- getRainLastHour, main.cpp lines 1033-1077, as a state transformer on
the clock: resolves the current time (lines 1036-1042, possibly triggering
an NTP resync inside getLocalTime) and then runs the summation loop. The
result is (returned sum, clock state after the call). -/
def getRainLastHourSt (env : ClockEnv) (c : ClockState)
    (history : List RainRecord) : ℚ × ClockState :=
  let p := resolveCurrentTime env c
  (getRainLastHourAt history p.2, p.1)

/-- getRainLast24Hours, main.cpp lines 1080-1124, as a state transformer on
the clock, analogous to getRainLastHourSt. -/
def getRainLast24HoursSt (env : ClockEnv) (c : ClockState)
    (history : List RainRecord) : ℚ × ClockState :=
  let p := resolveCurrentTime env c
  (getRainLast24HoursAt history p.2, p.1)

/- Wake-cycle control flow of setup(), main.cpp lines 124-313. -/

/-- How one wake cycle of setup() terminates: ESP.restart() (config-portal
paths, main.cpp lines 181 and 435) or esp_deep_sleep_start() (lines 210,
221, 263, 312). -/
inductive CycleEnd where
  | restart
  | deepSleep
deriving DecidableEq

/-- Branch outcomes observed by one run of setup(): the USE_CONFIG_PORTAL
build flag, the wake-cause classification results (needsConfiguration set
at line 365, checkConfigButtonPressed at line 156), whether the WiFi
association loop at lines 393-397 ends connected, the three
shouldEnterSleep runtime checks (lines 207, 218, 260), and the sensor and
transmission outcomes. -/
structure SetupEnv where
  configPortalEnabled : Bool
  needsConfiguration : Bool
  configButtonPressed : Bool
  wifiConnects : Bool
  sensorReadOk : Bool
  runtimeExceeded1 : Bool
  runtimeExceeded2 : Bool
  runtimeExceeded3 : Bool
  transmissionOk : Bool
deriving DecidableEq

/-- Control flow of setup(), main.cpp lines 124-313, reduced to how the
cycle ends and whether the transmission block (lines 282-305) was reached.
setupWiFi (lines 379-440) restarts the device after a failed association
when the config portal is compiled in (line 435); the explicit config-mode
branch (lines 156-186) likewise ends in ESP.restart() (line 181) when the
portal is compiled in, and otherwise falls through to normal operation.
Every remaining path, including all three runtime-exceeded early exits and
both transmission outcomes, ends in esp_deep_sleep_start(). -/
def setupRun (env : SetupEnv) : CycleEnd × Bool :=
  if env.wifiConnects = false ∧ env.configPortalEnabled = true then
    (CycleEnd.restart, false)
  else if (env.needsConfiguration = true ∨ env.configButtonPressed = true) ∧
      env.configPortalEnabled = true then
    (CycleEnd.restart, false)
  else if env.runtimeExceeded1 = true then (CycleEnd.deepSleep, false)
  else if env.runtimeExceeded2 = true then (CycleEnd.deepSleep, false)
  else if env.runtimeExceeded3 = true then (CycleEnd.deepSleep, false)
  else (CycleEnd.deepSleep, env.wifiConnects)

/- Battery level classification. -/

/-- Value of a C float restricted to what batteryLevel inspects: either NaN
(every ordered comparison is false) or a finite value, modelled exactly as
a rational. All thresholds of batteryLevel are decimal literals whose
comparisons against finite voltages behave like the rational comparisons up
to representation error, which no claim depends on. -/
inductive FloatVal where
  | nan
  | fin (q : ℚ)
deriving DecidableEq

/-- Comparison v >= c of a float value against a finite threshold: false
whenever v is NaN. -/
def fge (v : FloatVal) (c : ℚ) : Bool :=
  match v with
  | .nan => false
  | .fin q => decide (c ≤ q)

/-- batteryLevel, main.cpp lines 1179-1185: thresholds 4.2, 3.95, 3.7 and
3.5 volts tried in that order, defaulting to the critical level 10. -/
def batteryLevel (voltage : FloatVal) : Int :=
  if fge voltage (42 / 10) then 100
  else if fge voltage (395 / 100) then 75
  else if fge voltage (37 / 10) then 50
  else if fge voltage (7 / 2) then 25
  else 10

/- Further helper lemmas. -/

lemma evictOldestShift_eq_tail (l : List RainRecord) : evictOldestShift l = l.tail := by
  cases l <;> rfl

lemma rainSince_keepRecent (l : List RainRecord) (c q : Int) (h : c ≤ q) :
    rainSince (keepRecent c l) q = rainSince l q := by
  induction l with
  | nil => rfl
  | cons r rest ih =>
    by_cases hc : c ≤ (r.timestamp : Int)
    · by_cases hq : q ≤ (r.timestamp : Int)
      · have ih2 : rainSince (keepRecent c rest) q = rainSince rest q := ih
        simp only [keepRecent, if_pos hc, rainSince, List.foldl_cons, if_pos hq]
        rw [rainSince_acc, rainSince_acc, ih2]
      · simp only [keepRecent, if_pos hc, rainSince, List.foldl_cons, if_neg hq]
        exact ih
    · have hq : ¬ q ≤ (r.timestamp : Int) := fun hq2 => hc (le_trans h hq2)
      simp only [keepRecent, if_neg hc, rainSince, List.foldl_cons, if_neg hq]
      exact ih

/- Claim theorems. -/

/-- C1: for every sequence of appends (addRainRecord) interleaved with
age-based evictions (manageRainHistory), starting from the cold-boot state,
the record count never exceeds MAX_RAIN_RECORDS = 288, totalRainfall equals
the exact sum of all strictly positive amounts ever appended, and an
age-based eviction never changes totalRainfall. -/
theorem rainlog_capacity_and_total_invariant (ops : List RainOp) :
    (runOps initialRainState ops).rainHistory.length ≤ MAX_RAIN_RECORDS ∧
    (runOps initialRainState ops).totalRainfall = posAppendSum ops ∧
    ∀ (s : RainState) (t : Int),
      (manageRainHistory s t).totalRainfall = s.totalRainfall := by
  refine ⟨runOps_length_le ops initialRainState (by simp [initialRainState]), ?_, ?_⟩
  · rw [runOps_total]
    simp [initialRainState]
  · intro s t
    rfl

/-- Scenario state of C2: the three records of the spec scenario appended
to an empty log. -/
def scenarioState : RainState :=
  addRainRecord
    (addRainRecord (addRainRecord initialRainState 0 (1 / 4)) 1800 (1 / 4))
    4000 (1 / 4)

/-- C2: with records (0, 0.25), (1800, 0.25), (4000, 0.25), the one hour
window at now = 4000 sums to 0.50 (the record at t = 0 is excluded) and the
24 hour window sums to 0.75; in general the windowed sum adds the amount of
exactly the retained records with timestamp at least now minus the
window. -/
theorem windowed_sum_scenario_and_spec :
    getRainLastHourAt scenarioState.rainHistory 4000 = 1 / 2 ∧
    getRainLast24HoursAt scenarioState.rainHistory 4000 = 3 / 4 ∧
    ∀ (h : List RainRecord) (now w : Int),
      sumInWindow h now w
        = ((h.filter (fun r => decide (now - w ≤ (r.timestamp : Int)))).map
            RainRecord.amount).sum := by
  have hs : scenarioState.rainHistory
      = [{ timestamp := 0, amount := 1 / 4 }, { timestamp := 1800, amount := 1 / 4 },
         { timestamp := 4000, amount := 1 / 4 }] := by
    norm_num [scenarioState, addRainRecord, initialRainState, MAX_RAIN_RECORDS,
      evictOldestShift, toU32, Int.toNat_ofNat]
    omega
  refine ⟨?_, ?_, ?_⟩
  · rw [hs]
    norm_num [getRainLastHourAt, rainSince, HOUR_SECONDS]
  · rw [hs]
    norm_num [getRainLast24HoursAt, rainSince, DAY_SECONDS]
  · intro h now w
    exact rainSince_eq_filter_sum h (now - w)

/-- C4: age-based eviction keeps exactly the records whose timestamp is at
least the cutoff (currentTime minus 24 hours), in their original relative
order (the kept list is a sublist of the original), and leaves totalRainfall
unchanged. -/
theorem manageRainHistory_keeps_exactly_recent (s : RainState) (t : Int) :
    (manageRainHistory s t).rainHistory
        = s.rainHistory.filter (fun r => decide (t - DAY_SECONDS ≤ (r.timestamp : Int))) ∧
    (manageRainHistory s t).rainHistory.Sublist s.rainHistory ∧
    (manageRainHistory s t).totalRainfall = s.totalRainfall := by
  refine ⟨keepRecent_eq_filter _ _, ?_, rfl⟩
  have h : (manageRainHistory s t).rainHistory
      = s.rainHistory.filter (fun r => decide (t - DAY_SECONDS ≤ (r.timestamp : Int))) :=
    keepRecent_eq_filter _ _
  rw [h]
  exact List.filter_sublist s.rainHistory

/-- C5: evicting with a cutoff of tEvict minus 24 hours and then querying a
window w at time now changes nothing as long as w is at most now minus that
cutoff: no record inside the query window is removed by an older cutoff. -/
theorem evict_then_window_query_unchanged (s : RainState) (tEvict now w : Int)
    (hw : w ≤ now - (tEvict - DAY_SECONDS)) :
    sumInWindow (manageRainHistory s tEvict).rainHistory now w
      = sumInWindow s.rainHistory now w := by
  have hc : tEvict - DAY_SECONDS ≤ now - w := by linarith
  exact rainSince_keepRecent s.rainHistory (tEvict - DAY_SECONDS) (now - w) hc

/-- Concrete log used by the witness of C5. -/
def evictQueryState : RainState :=
  { rainHistory :=
      [{ timestamp := 1000, amount := 1 / 4 }, { timestamp := 5000, amount := 1 / 2 }],
    totalRainfall := 3 / 4 }

/-- Witness for C5 at a concrete log, eviction time and window. -/
theorem evict_then_window_query_unchanged_witness :
    (6000 : Int) ≤ 10000 - (90000 - DAY_SECONDS) ∧
    sumInWindow (manageRainHistory evictQueryState 90000).rainHistory 10000 6000
      = sumInWindow evictQueryState.rainHistory 10000 6000 :=
  ⟨by decide,
    evict_then_window_query_unchanged evictQueryState 90000 10000 6000 (by decide)⟩

/-- C6: appending a positive amount to a log holding exactly
MAX_RAIN_RECORDS records with strictly increasing timestamps drops exactly
the record at index 0 (the remainder is shifted left, so the survivors keep
their relative order), places the new record at the tail, keeps the count
at MAX_RAIN_RECORDS and raises totalRainfall by exactly the new amount. -/
theorem addRainRecord_at_capacity (s : RainState) (t : Int) (a : ℚ)
    (hlen : s.rainHistory.length = MAX_RAIN_RECORDS)
    (hinc : s.rainHistory.Chain' (fun r1 r2 => r1.timestamp < r2.timestamp))
    (hpos : 0 < a) :
    (addRainRecord s t a).rainHistory
        = s.rainHistory.tail ++ [{ timestamp := toU32 t, amount := a }] ∧
    (addRainRecord s t a).rainHistory.length = MAX_RAIN_RECORDS ∧
    s.rainHistory.tail.Sublist s.rainHistory ∧
    (addRainRecord s t a).totalRainfall = s.totalRainfall + a := by
  have hfull : MAX_RAIN_RECORDS ≤ s.rainHistory.length := le_of_eq hlen.symm
  have hrep : (addRainRecord s t a).rainHistory
      = s.rainHistory.tail ++ [{ timestamp := toU32 t, amount := a }] := by
    simp [addRainRecord, not_le.mpr hpos, hfull, evictOldestShift_eq_tail]
  refine ⟨hrep, ?_, List.tail_sublist s.rainHistory, ?_⟩
  · rw [hrep]
    simp only [List.length_append, List.length_tail, List.length_singleton, hlen]
    simp [MAX_RAIN_RECORDS]
  · simp [addRainRecord, not_le.mpr hpos, hfull]

/-- Log filled to capacity with strictly increasing timestamps, used by the
witness of C6. -/
def fullState : RainState :=
  { rainHistory :=
      (List.range MAX_RAIN_RECORDS).map
        (fun i => { timestamp := i, amount := 1 / 4 }),
    totalRainfall := 72 }

set_option maxRecDepth 4000 in
/-- Witness for C6 at a concrete full log. -/
theorem addRainRecord_at_capacity_witness :
    (fullState.rainHistory.length = MAX_RAIN_RECORDS ∧
      fullState.rainHistory.Chain' (fun r1 r2 => r1.timestamp < r2.timestamp) ∧
      (0 : ℚ) < 1 / 4) ∧
    ((addRainRecord fullState 100000 (1 / 4)).rainHistory
        = fullState.rainHistory.tail ++ [{ timestamp := toU32 100000, amount := 1 / 4 }] ∧
      (addRainRecord fullState 100000 (1 / 4)).rainHistory.length = MAX_RAIN_RECORDS ∧
      fullState.rainHistory.tail.Sublist fullState.rainHistory ∧
      (addRainRecord fullState 100000 (1 / 4)).totalRainfall
        = fullState.totalRainfall + 1 / 4) := by
  have hchain : fullState.rainHistory.Chain' (fun r1 r2 => r1.timestamp < r2.timestamp) := by
    show ((List.range MAX_RAIN_RECORDS).map
        (fun i => ({ timestamp := i, amount := 1 / 4 } : RainRecord))).Chain' _
    rw [List.chain'_map]
    rw [show MAX_RAIN_RECORDS = 287 + 1 from rfl, List.chain'_range_succ]
    intro m hm
    show m < m + 1
    omega
  have hlen : fullState.rainHistory.length = MAX_RAIN_RECORDS := by
    simp [fullState]
  exact ⟨⟨hlen, hchain, by norm_num⟩,
    addRainRecord_at_capacity fullState 100000 (1 / 4) hlen hchain (by norm_num)⟩

/-- C7: addRainRecord with a non-positive amount is a no-op on the whole
rain-log state: history and totalRainfall are unchanged and no eviction
happens. -/
theorem addRainRecord_nonpositive_noop (s : RainState) (t : Int) (a : ℚ)
    (h : a ≤ 0) : addRainRecord s t a = s := by
  simp [addRainRecord, h]

/-- Witness for C7: amount 0 on the initial state. -/
theorem addRainRecord_nonpositive_noop_witness :
    (0 : ℚ) ≤ 0 ∧ addRainRecord initialRainState 0 0 = initialRainState :=
  ⟨le_refl 0, addRainRecord_nonpositive_noop initialRainState 0 0 (le_refl 0)⟩

/-- Environment of the C3 counterexample: a normal (timer) wake whose WiFi
association times out, in a build with the configuration portal compiled
in. -/
def wifiFailPortalEnv : SetupEnv :=
  { configPortalEnabled := true, needsConfiguration := false,
    configButtonPressed := false, wifiConnects := false, sensorReadOk := true,
    runtimeExceeded1 := false, runtimeExceeded2 := false,
    runtimeExceeded3 := false, transmissionOk := true }

/-- Counterexample to C3: in a build with USE_CONFIG_PORTAL, a wake cycle
whose WiFi association fails ends in ESP.restart() inside setupWiFi
(main.cpp line 435) and never reaches setupDeepSleep. -/
theorem setup_wifi_failure_restarts :
    (setupRun wifiFailPortalEnv).1 = CycleEnd.restart ∧
    (setupRun wifiFailPortalEnv).1 ≠ CycleEnd.deepSleep := by
  decide

/-- C3 as amended: a wake cycle reaches the sleep-arming step for every
outcome of time sync, sensor reads, runtime checks and transmission,
provided the WiFi association succeeds or the configuration portal is not
compiled in, and no configuration mode is requested (or the portal is not
compiled in); with the portal compiled in, a WiFi failure instead restarts
the device into configuration mode. -/
theorem setup_reaches_sleep (env : SetupEnv)
    (hwifi : env.configPortalEnabled = false ∨ env.wifiConnects = true)
    (hcfg : env.configPortalEnabled = false ∨
      (env.needsConfiguration = false ∧ env.configButtonPressed = false)) :
    (setupRun env).1 = CycleEnd.deepSleep := by
  simp only [setupRun]
  split_ifs with h1 h2 <;> simp_all

/-- Environment of the C3 witness: portal-free build with failed WiFi and a
pending configuration request, which still reaches deep sleep. -/
def portalOffEnv : SetupEnv :=
  { configPortalEnabled := false, needsConfiguration := true,
    configButtonPressed := false, wifiConnects := false, sensorReadOk := false,
    runtimeExceeded1 := false, runtimeExceeded2 := false,
    runtimeExceeded3 := false, transmissionOk := false }

/-- Witness for the amended C3. -/
theorem setup_reaches_sleep_witness :
    (portalOffEnv.configPortalEnabled = false ∨ portalOffEnv.wifiConnects = true) ∧
    (portalOffEnv.configPortalEnabled = false ∨
      (portalOffEnv.needsConfiguration = false ∧ portalOffEnv.configButtonPressed = false)) ∧
    (setupRun portalOffEnv).1 = CycleEnd.deepSleep :=
  ⟨Or.inl rfl, Or.inl rfl, setup_reaches_sleep portalOffEnv (Or.inl rfl) (Or.inl rfl)⟩

/-- Environment of the C9 counterexample: WiFi up, the NTP fetch would
succeed and install time 1700000000. -/
def syncEnvCE : ClockEnv :=
  { wifiConnected := true, ntpSuccess := true, ntpTime := 1700000000,
    uptimeSec := 0 }

/-- Clock state of the C9 counterexample: the last successful sync happened
at the very second the clock currently shows, so its age is 0, well below
the resync interval. -/
def syncStateCE : ClockState :=
  { lastNTPSync := 1650000000, clockNow := 1650000000 }

/-- Counterexample to C9: a last successful sync of age 0 (younger than the
3600 second resync interval) is not skipped, because the guard at main.cpp
line 1196 demands now strictly greater than lastNTPSync; the attempt runs
and mutates the sync state. -/
theorem syncTime_not_skipped_when_now_equals_last :
    0 < syncStateCE.lastNTPSync ∧
    syncStateCE.clockNow - syncStateCE.lastNTPSync < NTP_SYNC_INTERVAL_SECONDS ∧
    syncTimeWithNTP syncEnvCE syncStateCE ≠ syncStateCE := by
  decide

/-- C9 as amended: lastNTPSync is mutated only by a successful sync (a
timeout or missing WiFi leaves the state untouched), and a fresh attempt is
skipped whenever the last successful sync lies strictly in the past and is
younger than the 3600 second resync interval. -/
theorem syncTimeWithNTP_state_spec (env : ClockEnv) (c : ClockState) :
    (env.ntpSuccess = false → syncTimeWithNTP env c = c) ∧
    (env.wifiConnected = false → syncTimeWithNTP env c = c) ∧
    (0 < c.lastNTPSync → c.lastNTPSync < c.clockNow →
      c.clockNow - c.lastNTPSync < NTP_SYNC_INTERVAL_SECONDS →
      syncTimeWithNTP env c = c) ∧
    (syncTimeWithNTP env c ≠ c →
      env.wifiConnected = true ∧ env.ntpSuccess = true ∧
      (syncTimeWithNTP env c).lastNTPSync = env.ntpTime ∧
      (syncTimeWithNTP env c).clockNow = env.ntpTime) := by
  unfold syncTimeWithNTP
  split_ifs with h1 h2 h3 <;>
    refine ⟨?_, ?_, ?_, ?_⟩ <;> intros <;> simp_all

/-- Environment of the C9 witness with a failing NTP fetch. -/
def syncEnvFail : ClockEnv :=
  { wifiConnected := true, ntpSuccess := false, ntpTime := 1700000000,
    uptimeSec := 0 }

/-- Clock state of the C9 witness: last sync 1000 seconds in the past. -/
def syncStateW : ClockState :=
  { lastNTPSync := 1650000000, clockNow := 1650001000 }

/-- Witness for the amended C9: a timed-out attempt leaves the state
untouched, and a recent past sync makes a fresh attempt a no-op. -/
theorem syncTimeWithNTP_state_spec_witness :
    (syncEnvFail.ntpSuccess = false ∧
      syncTimeWithNTP syncEnvFail syncStateW = syncStateW) ∧
    (0 < syncStateW.lastNTPSync ∧ syncStateW.lastNTPSync < syncStateW.clockNow ∧
      syncStateW.clockNow - syncStateW.lastNTPSync < NTP_SYNC_INTERVAL_SECONDS ∧
      syncTimeWithNTP syncEnvCE syncStateW = syncStateW) :=
  ⟨⟨rfl, (syncTimeWithNTP_state_spec syncEnvFail syncStateW).1 rfl⟩,
    ⟨by decide, by decide, by decide,
      (syncTimeWithNTP_state_spec syncEnvCE syncStateW).2.2.1
        (by decide) (by decide) (by decide)⟩⟩

/-- Environment of the C8 counterexample: WiFi up and an NTP fetch that
would succeed. -/
def queryEnvCE : ClockEnv :=
  { wifiConnected := true, ntpSuccess := true, ntpTime := 1700000000,
    uptimeSec := 0 }

/-- Clock state of the C8 counterexample: synchronized, but the last sync
is 10000 seconds old, beyond the resync interval. -/
def queryStateCE : ClockState :=
  { lastNTPSync := 1690000000, clockNow := 1690010000 }

/-- Counterexample to C8: getRainLastHour is not free of side effects on
the clock state; via getLocalTime (main.cpp line 1039 calling line 1234) it
triggers an NTP resync that rewrites lastNTPSync. -/
theorem getRainLastHour_mutates_clock_state :
    (getRainLastHourSt queryEnvCE queryStateCE []).2 ≠ queryStateCE ∧
    (getRainLastHourSt queryEnvCE queryStateCE []).2.lastNTPSync
      ≠ queryStateCE.lastNTPSync := by
  decide

lemma syncTimeWithNTP_cases (env : ClockEnv) (c : ClockState) :
    syncTimeWithNTP env c = c ∨
    (syncTimeWithNTP env c = { lastNTPSync := env.ntpTime, clockNow := env.ntpTime } ∧
      NTP_VALID_EPOCH ≤ env.ntpTime) := by
  unfold syncTimeWithNTP
  split_ifs with h1 h2 h3
  · exact Or.inl rfl
  · exact Or.inl rfl
  · exact Or.inr ⟨rfl, h3.2⟩
  · exact Or.inl rfl

lemma resolveCurrentTime_idem (env : ClockEnv) (c : ClockState) :
    resolveCurrentTime env (resolveCurrentTime env c).1 = resolveCurrentTime env c := by
  by_cases h0 : env.wifiConnected = true ∧ 0 < c.lastNTPSync
  · by_cases hG : env.wifiConnected = true ∧
        (c.lastNTPSync = 0 ∨ NTP_SYNC_INTERVAL_SECONDS ≤ c.clockNow - c.lastNTPSync)
    · rcases syncTimeWithNTP_cases env c with hs | ⟨hs, he⟩
      · simp only [resolveCurrentTime, getLocalTime, if_pos h0, if_pos hG, hs]
      · have h0b : env.wifiConnected = true ∧
            0 < ({ lastNTPSync := env.ntpTime, clockNow := env.ntpTime } : ClockState).lastNTPSync := by
          refine ⟨h0.1, ?_⟩
          simp only [NTP_VALID_EPOCH] at he
          simp only []
          omega
        have hGb : ¬ (env.wifiConnected = true ∧
            (({ lastNTPSync := env.ntpTime, clockNow := env.ntpTime } : ClockState).lastNTPSync = 0 ∨
              NTP_SYNC_INTERVAL_SECONDS ≤
                ({ lastNTPSync := env.ntpTime, clockNow := env.ntpTime } : ClockState).clockNow -
                  ({ lastNTPSync := env.ntpTime, clockNow := env.ntpTime } : ClockState).lastNTPSync)) := by
          rintro ⟨-, hcase | hcase⟩ <;>
            simp only [NTP_SYNC_INTERVAL_SECONDS, NTP_VALID_EPOCH] at hcase he <;> omega
        simp only [resolveCurrentTime, getLocalTime, if_pos h0, if_pos hG, hs,
          if_pos h0b, if_neg hGb]
    · simp only [resolveCurrentTime, getLocalTime, if_pos h0, if_neg hG]
  · simp only [resolveCurrentTime, if_neg h0]

/-- C8 as amended: the aggregation queries never touch the rain log and are
idempotent in their returned value, and a second immediate call leaves the
clock state where the first one put it; the first call may however move the
clock state by triggering a due NTP resync (see the counterexample). -/
theorem rain_queries_idempotent (env : ClockEnv) (c : ClockState)
    (h : List RainRecord) :
    ((getRainLastHourSt env (getRainLastHourSt env c h).2 h).1
        = (getRainLastHourSt env c h).1 ∧
      (getRainLastHourSt env (getRainLastHourSt env c h).2 h).2
        = (getRainLastHourSt env c h).2) ∧
    ((getRainLast24HoursSt env (getRainLast24HoursSt env c h).2 h).1
        = (getRainLast24HoursSt env c h).1 ∧
      (getRainLast24HoursSt env (getRainLast24HoursSt env c h).2 h).2
        = (getRainLast24HoursSt env c h).2) := by
  have hr := resolveCurrentTime_idem env c
  refine ⟨⟨?_, ?_⟩, ⟨?_, ?_⟩⟩ <;>
    simp only [getRainLastHourSt, getRainLast24HoursSt, hr]

/-- Rewriting of batteryLevel on a finite voltage into rational threshold
comparisons. -/
lemma batteryLevel_fin (q : ℚ) :
    batteryLevel (.fin q)
      = if 42 / 10 ≤ q then 100
        else if 395 / 100 ≤ q then 75
        else if 37 / 10 ≤ q then 50
        else if 7 / 2 ≤ q then 25
        else 10 := by
  simp [batteryLevel, fge]

/-- C10: batteryLevel is total with range contained in
{100, 75, 50, 25, 10}, picks its value by the thresholds 4.2, 3.95, 3.7 and
3.5 volts in that order, is monotone in the voltage, and maps NaN (every
comparison false) as well as every voltage below 3.5 to 10. -/
theorem batteryLevel_spec :
    (∀ v, batteryLevel v = 100 ∨ batteryLevel v = 75 ∨ batteryLevel v = 50 ∨
      batteryLevel v = 25 ∨ batteryLevel v = 10) ∧
    (∀ q : ℚ, 42 / 10 ≤ q → batteryLevel (.fin q) = 100) ∧
    (∀ q : ℚ, 395 / 100 ≤ q → q < 42 / 10 → batteryLevel (.fin q) = 75) ∧
    (∀ q : ℚ, 37 / 10 ≤ q → q < 395 / 100 → batteryLevel (.fin q) = 50) ∧
    (∀ q : ℚ, 7 / 2 ≤ q → q < 37 / 10 → batteryLevel (.fin q) = 25) ∧
    (∀ q : ℚ, q < 7 / 2 → batteryLevel (.fin q) = 10) ∧
    (∀ q1 q2 : ℚ, q1 ≤ q2 → batteryLevel (.fin q1) ≤ batteryLevel (.fin q2)) ∧
    batteryLevel .nan = 10 := by
  refine ⟨?_, ?_, ?_, ?_, ?_, ?_, ?_, rfl⟩
  · intro v
    cases v with
    | nan => simp [batteryLevel, fge]
    | fin q =>
      rw [batteryLevel_fin]
      split_ifs <;> simp
  · intro q hq
    rw [batteryLevel_fin]
    split_ifs <;> first | rfl | linarith
  · intro q hq1 hq2
    rw [batteryLevel_fin]
    split_ifs <;> first | rfl | linarith
  · intro q hq1 hq2
    rw [batteryLevel_fin]
    split_ifs <;> first | rfl | linarith
  · intro q hq1 hq2
    rw [batteryLevel_fin]
    split_ifs <;> first | rfl | linarith
  · intro q hq
    rw [batteryLevel_fin]
    split_ifs <;> first | rfl | linarith
  · intro q1 q2 hle
    rw [batteryLevel_fin, batteryLevel_fin]
    split_ifs <;> first | rfl | (exfalso; linarith) | norm_num

/-- Witness for C10 at concrete voltages. -/
theorem batteryLevel_spec_witness :
    ((42 : ℚ) / 10 ≤ 5 ∧ batteryLevel (.fin 5) = 100) ∧
    ((3 : ℚ) ≤ 4 ∧ batteryLevel (.fin 3) ≤ batteryLevel (.fin 4)) ∧
    ((3 : ℚ) < 7 / 2 ∧ batteryLevel (.fin 3) = 10) :=
  ⟨⟨by norm_num, batteryLevel_spec.2.1 5 (by norm_num)⟩,
    ⟨by norm_num, batteryLevel_spec.2.2.2.2.2.2.1 3 4 (by norm_num)⟩,
    ⟨by norm_num, batteryLevel_spec.2.2.2.2.2.1 3 (by norm_num)⟩⟩

end WeatherStation
